import Mathlib

/-!
Verification of the OpenNMT-tf → CTranslate2 converter
(`python/ctranslate2/converters/opennmt_tf.py`).

The Python converter is embedded shallowly:

* numpy arrays become `NDArray` (a shape plus row-major integer data);
* the checkpoint name→tensor dict (`variables` in Python, here `vars`) becomes an association list `Store`;
* each `set_*` function mutating a spec node in place becomes a pure
  function returning the (possibly partially) updated node together with
  `Option String`: `some name` models a `KeyError` (or other exception)
  escaping with the missing variable name, after the in-place mutations
  already performed — mirroring Python, where a raised exception leaves
  the mutations of the caller-supplied object in place.
-/

/-- A numeric n-dimensional array: a shape and row-major (C-order) data.
Element values are modelled as integers (exact values, as the converter
never does arithmetic on them). -/
structure NDArray where
  shape : List Nat
  data : List Int
deriving DecidableEq, Repr

namespace NDArray

/-- Product of a shape's dimensions. -/
def sizeOfShape (l : List Nat) : Nat := l.foldr (fun d a => d * a) 1

/-- Row-major multi-index of linear position `n` in shape `s`. -/
def multiIndex : List Nat → Nat → List Nat
  | [], _ => []
  | _ :: ds, n => (n / sizeOfShape ds) :: multiIndex ds (n % sizeOfShape ds)

/-- Row-major linear position of multi-index `ix` in shape `s`. -/
def linIndex : List Nat → List Nat → Nat
  | _ :: ds, i :: is => i * sizeOfShape ds + linIndex ds is
  | _, _ => 0

/-- `numpy.ndarray.squeeze()`: drop every axis of size 1; row-major data
is unchanged by removing singleton axes. -/
def squeeze (a : NDArray) : NDArray :=
  ⟨a.shape.filter (fun d => d != 1), a.data⟩

/-- `numpy.ndarray.transpose()` with no axes argument: reverse the axes.
For a 2-D `[r, c]` array this is the matrix transpose; 0-D and 1-D
arrays are unchanged. -/
def transpose (a : NDArray) : NDArray :=
  let s := a.shape.reverse
  ⟨s, (List.range (sizeOfShape a.shape)).map
      (fun n => a.data.getD (linIndex a.shape (multiIndex s n).reverse) 0)⟩

/-- `numpy.array_equal`: shapes equal and all elements equal (exact
equality, no tolerance). -/
def array_equal (a b : NDArray) : Bool :=
  a.shape == b.shape && a.data == b.data

end NDArray

/-- The checkpoint's `variables` dict (here `vars`): fully-qualified tensor name → array.
Keys are unique in a Python dict; lookup returns the first match. -/
abbrev Store := List (String × NDArray)

/-- `variables.get(name)` / `variables[name]` lookup (a direct hit or a miss,
no fuzzy matching). -/
def lookupVar : Store → String → Option NDArray
  | [], _ => none
  | (k, v) :: rest, name => if k == name then some v else lookupVar rest name

/- Spec-tree node types, mirroring `common_spec`/`transformer_spec`
(those modules are outside this file's source; the nodes carry exactly
the attributes the converter assigns, unset attributes being `none`). -/

/-- `common_spec.LinearSpec`. -/
structure LinearSpec where
  weight : Option NDArray
  bias : Option NDArray
deriving DecidableEq, Repr

/-- `common_spec.LayerNormSpec`. -/
structure LayerNormSpec where
  gamma : Option NDArray
  beta : Option NDArray
deriving DecidableEq, Repr

/-- `common_spec.EmbeddingsSpec`. -/
structure EmbeddingsSpec where
  weight : Option NDArray
  multiply_by_sqrt_depth : Bool
deriving DecidableEq, Repr

/-- `transformer_spec.MultiHeadAttentionSpec`: `linear` is an ordered list
of `LinearSpec` (2 entries in the self-attention template, 3 in the
cross-attention template). -/
structure AttentionSpec where
  layer_norm : LayerNormSpec
  linear : List LinearSpec
  relative_position_keys : Option NDArray
  relative_position_values : Option NDArray
deriving DecidableEq, Repr

/-- `transformer_spec.FeedForwardSpec`. -/
structure FeedForwardSpec where
  layer_norm : LayerNormSpec
  linear_0 : LinearSpec
  linear_1 : LinearSpec
deriving DecidableEq, Repr

/-- `transformer_spec.TransformerEncoderLayerSpec`. -/
structure EncoderLayerSpec where
  self_attention : AttentionSpec
  ffn : FeedForwardSpec
deriving DecidableEq, Repr

/-- `transformer_spec.TransformerDecoderLayerSpec`: `attention` is the
cross-attention block. -/
structure DecoderLayerSpec where
  self_attention : AttentionSpec
  attention : AttentionSpec
  ffn : FeedForwardSpec
deriving DecidableEq, Repr

/-- `transformer_spec.TransformerEncoderSpec`: `layer` is the ordered list
of encoder layers configured by the spec template. -/
structure EncoderSpec where
  embeddings : EmbeddingsSpec
  layer_norm : LayerNormSpec
  layer : List EncoderLayerSpec
deriving DecidableEq, Repr

/-- `transformer_spec.TransformerDecoderSpec`. -/
structure DecoderSpec where
  embeddings : EmbeddingsSpec
  layer_norm : LayerNormSpec
  projection : LinearSpec
  layer : List DecoderLayerSpec
deriving DecidableEq, Repr

/-- `transformer_spec.TransformerSpec`. -/
structure TransformerSpec where
  encoder : EncoderSpec
  decoder : DecoderSpec
  with_relative_position : Bool
deriving DecidableEq, Repr

/-- A fresh `common_spec.LinearSpec()` with nothing set. -/
def emptyLinear : LinearSpec := ⟨none, none⟩

/-- A fresh `LayerNormSpec` with nothing set. -/
def emptyLayerNorm : LayerNormSpec := ⟨none, none⟩

/-- A fresh `EmbeddingsSpec` with nothing set. -/
def emptyEmbeddings : EmbeddingsSpec := ⟨none, false⟩

/-- Modelled from the spec: the self-attention template node, whose
`linear` list has exactly 2 entries (fused query+key+value, output). -/
def selfAttentionTemplate : AttentionSpec :=
  ⟨emptyLayerNorm, [emptyLinear, emptyLinear], none, none⟩

/-- Modelled from the spec: the cross-attention template node, whose
`linear` list has exactly 3 entries (query, fused key+value, output). -/
def crossAttentionTemplate : AttentionSpec :=
  ⟨emptyLayerNorm, [emptyLinear, emptyLinear, emptyLinear], none, none⟩

/-- An empty feed-forward template node. -/
def ffnTemplate : FeedForwardSpec := ⟨emptyLayerNorm, emptyLinear, emptyLinear⟩

/-- An empty encoder-layer template node. -/
def encoderLayerTemplate : EncoderLayerSpec := ⟨selfAttentionTemplate, ffnTemplate⟩

/-- An empty decoder-layer template node. -/
def decoderLayerTemplate : DecoderLayerSpec :=
  ⟨selfAttentionTemplate, crossAttentionTemplate, ffnTemplate⟩

/-- Modelled from the spec: an empty encoder spec template configured with
`n` layers (the template fixes the layer count; §3 lifecycle: the tree is
created empty and populated by the setters). -/
def encoderTemplate (n : Nat) : EncoderSpec :=
  ⟨emptyEmbeddings, emptyLayerNorm, List.replicate n encoderLayerTemplate⟩

/-- Modelled from the spec: an empty decoder spec template configured with
`n` layers. -/
def decoderTemplate (n : Nat) : DecoderSpec :=
  ⟨emptyEmbeddings, emptyLayerNorm, emptyLinear, List.replicate n decoderLayerTemplate⟩

/-- An empty transformer spec template with `ne` encoder and `nd` decoder
layers. -/
def transformerTemplate (ne nd : Nat) (rel : Bool) : TransformerSpec :=
  ⟨encoderTemplate ne, decoderTemplate nd, rel⟩

/-- `set_layer_norm(spec, variables, scope)` (source lines 305-307):

    spec.gamma = variables["%s/gamma" % scope]
    spec.beta = variables["%s/beta" % scope]

A missing `gamma` raises before any mutation; a missing `beta` raises
after `gamma` was already assigned. -/
def set_layer_norm (spec : LayerNormSpec) (vars : Store) (scope : String) :
    LayerNormSpec × Option String :=
  match lookupVar vars (scope ++ "/gamma") with
  | none => (spec, some (scope ++ "/gamma"))
  | some g =>
    let spec := { spec with gamma := some g }
    match lookupVar vars (scope ++ "/beta") with
    | none => (spec, some (scope ++ "/beta"))
    | some b => ({ spec with beta := some b }, none)

/-- `set_linear(spec, variables, scope, weight_name=None, transpose=True)`
(source lines 310-318):

    if weight_name is None:
        weight_name = "%s/kernel" % scope
    spec.weight = variables[weight_name].squeeze()
    if transpose:
        spec.weight = spec.weight.transpose()
    bias = variables.get("%s/bias" % scope)
    if bias is not None:
        spec.bias = bias
-/
def set_linear (spec : LinearSpec) (vars : Store) (scope : String)
    (weight_name : Option String) (transpose : Bool) : LinearSpec × Option String :=
  let wname := match weight_name with
    | none => scope ++ "/kernel"
    | some n => n
  match lookupVar vars wname with
  | none => (spec, some wname)
  | some w =>
    let wt := w.squeeze
    let wt := if transpose then wt.transpose else wt
    let spec := { spec with weight := some wt }
    let spec := match lookupVar vars (scope ++ "/bias") with
      | some b => { spec with bias := some b }
      | none => spec
    (spec, none)

/-- `set_embeddings(spec, variables, scope, version=1)` (source lines
321-329): looks up `scope/embedding` (version 2) or `scope/w_embs`
(version 1), sets the weight and the scale flag, and returns the variable
name on success (`Except.error` carries the missing name of a
`KeyError`). -/
def set_embeddings (spec : EmbeddingsSpec) (vars : Store) (scope : String)
    (version : Nat) : EmbeddingsSpec × Except String String :=
  let name := if version == 2 then "embedding" else "w_embs"
  let variable_name := scope ++ "/" ++ name
  match lookupVar vars variable_name with
  | none => (spec, Except.error variable_name)
  | some w =>
    ({ spec with weight := some w, multiply_by_sqrt_depth := true }, Except.ok variable_name)

/-- Row-wise concatenation of 2-D arrays sharing their second dimension:
output dimensions are summed, row-major data is concatenated. -/
def concatRows (ts : List NDArray) : NDArray :=
  ⟨[(ts.map (fun t => t.shape.headD 0)).sum,
    (ts.headD ⟨[], []⟩).shape.getD 1 0],
   (ts.map NDArray.data).flatten⟩

/-- Concatenation of 1-D arrays. -/
def concat1d (ts : List NDArray) : NDArray :=
  ⟨[(ts.map (fun t => t.shape.headD 0)).sum], (ts.map NDArray.data).flatten⟩

/-- Modelled from the spec: `utils.fuse_linear(spec, layers)` — the Linear
Fusion collaborator (§4.4) is not under `src/`. The fused weight is the
row-wise concatenation of the parts' weights in the given order (output
dimension concatenated, input dimension shared); the fused bias is the
concatenation of the parts' biases when every part has one, and absent
entirely otherwise. -/
def fuse_linear (spec : LinearSpec) (layers : List LinearSpec) : LinearSpec :=
  { spec with
    weight := some (concatRows (layers.filterMap LinearSpec.weight)),
    bias :=
      if layers.all (fun l => l.bias.isSome) then
        some (concat1d (layers.filterMap LinearSpec.bias))
      else none }


/-- `set_ffn_v2(spec, variables, scope)` (source lines 193-196). -/
def set_ffn_v2 (spec : FeedForwardSpec) (vars : Store) (scope : String) :
    FeedForwardSpec × Option String :=
  match set_layer_norm spec.layer_norm vars (scope ++ "/input_layer_norm") with
  | (ln, some e) => ({ spec with layer_norm := ln }, some e)
  | (ln, none) =>
    let spec1 := { spec with layer_norm := ln }
    match set_linear spec1.linear_0 vars (scope ++ "/layer/inner") none true with
    | (l0, some e) => ({ spec1 with linear_0 := l0 }, some e)
    | (l0, none) =>
      let spec2 := { spec1 with linear_0 := l0 }
      match set_linear spec2.linear_1 vars (scope ++ "/layer/outer") none true with
      | (l1, err) => ({ spec2 with linear_1 := l1 }, err)

/-- `set_multi_head_attention_v2(spec, variables, scope, self_attention=False,
relative=False)` (source lines 199-222). For self-attention, three fresh
`LinearSpec()` split layers are filled from `linear_queries` /
`linear_keys` / `linear_values` and fused into `spec.linear[0]`; for
cross-attention `spec.linear[0]` is the separate query projection and
`linear_keys` / `linear_values` are fused into `spec.linear[1]`; either
way `spec.linear[-1]` then receives the output projection. -/
def set_multi_head_attention_v2 (spec : AttentionSpec) (vars : Store) (scope : String)
    (self_attention : Bool) (relative : Bool) : AttentionSpec × Option String :=
  match set_layer_norm spec.layer_norm vars (scope ++ "/input_layer_norm") with
  | (ln, some e) => ({ spec with layer_norm := ln }, some e)
  | (ln, none) =>
    let spec1 := { spec with layer_norm := ln }
    let branch : AttentionSpec × Option String :=
      if self_attention then
        match set_linear emptyLinear vars (scope ++ "/layer/linear_queries") none true with
        | (_, some e) => (spec1, some e)
        | (q, none) =>
          match set_linear emptyLinear vars (scope ++ "/layer/linear_keys") none true with
          | (_, some e) => (spec1, some e)
          | (k, none) =>
            match set_linear emptyLinear vars (scope ++ "/layer/linear_values") none true with
            | (_, some e) => (spec1, some e)
            | (v, none) =>
              let spec2 := { spec1 with
                linear := spec1.linear.set 0 (fuse_linear (spec1.linear.getD 0 emptyLinear) [q, k, v]) }
              if relative then
                match lookupVar vars (scope ++ "/layer/relative_position_keys") with
                | none => (spec2, some (scope ++ "/layer/relative_position_keys"))
                | some rk =>
                  let spec3 := { spec2 with relative_position_keys := some rk }
                  match lookupVar vars (scope ++ "/layer/relative_position_values") with
                  | none => (spec3, some (scope ++ "/layer/relative_position_values"))
                  | some rv => ({ spec3 with relative_position_values := some rv }, none)
              else (spec2, none)
      else
        match set_linear (spec1.linear.getD 0 emptyLinear) vars
            (scope ++ "/layer/linear_queries") none true with
        | (l0, some e) => ({ spec1 with linear := spec1.linear.set 0 l0 }, some e)
        | (l0, none) =>
          let spec2 := { spec1 with linear := spec1.linear.set 0 l0 }
          match set_linear emptyLinear vars (scope ++ "/layer/linear_keys") none true with
          | (_, some e) => (spec2, some e)
          | (k, none) =>
            match set_linear emptyLinear vars (scope ++ "/layer/linear_values") none true with
            | (_, some e) => (spec2, some e)
            | (v, none) =>
              ({ spec2 with
                  linear := spec2.linear.set 1
                    (fuse_linear (spec2.linear.getD 1 emptyLinear) [k, v]) }, none)
    match branch with
    | (s, some e) => (s, some e)
    | (s, none) =>
      let idx := s.linear.length - 1
      match set_linear (s.linear.getD idx emptyLinear) vars
          (scope ++ "/layer/linear_output") none true with
      | (lo, err) => ({ s with linear := s.linear.set idx lo }, err)

/-- `set_transformer_encoder_layer_v2(spec, variables, scope, relative=False)`
(source lines 168-176). -/
def set_transformer_encoder_layer_v2 (spec : EncoderLayerSpec) (vars : Store)
    (scope : String) (relative : Bool) : EncoderLayerSpec × Option String :=
  match set_ffn_v2 spec.ffn vars (scope ++ "/ffn") with
  | (f, some e) => ({ spec with ffn := f }, some e)
  | (f, none) =>
    let spec1 := { spec with ffn := f }
    match set_multi_head_attention_v2 spec1.self_attention vars
        (scope ++ "/self_attention") true relative with
    | (sa, err) => ({ spec1 with self_attention := sa }, err)

/-- `set_transformer_decoder_layer_v2(spec, variables, scope, relative=False)`
(source lines 179-190). -/
def set_transformer_decoder_layer_v2 (spec : DecoderLayerSpec) (vars : Store)
    (scope : String) (relative : Bool) : DecoderLayerSpec × Option String :=
  match set_ffn_v2 spec.ffn vars (scope ++ "/ffn") with
  | (f, some e) => ({ spec with ffn := f }, some e)
  | (f, none) =>
    let spec1 := { spec with ffn := f }
    match set_multi_head_attention_v2 spec1.self_attention vars
        (scope ++ "/self_attention") true relative with
    | (sa, some e) => ({ spec1 with self_attention := sa }, some e)
    | (sa, none) =>
      let spec2 := { spec1 with self_attention := sa }
      match set_multi_head_attention_v2 spec2.attention vars
          (scope ++ "/attention/0") false relative with
      | (ca, err) => ({ spec2 with attention := ca }, err)

/-- The `for i, layer in enumerate(spec.layer)` loop of
`set_transformer_encoder_v2` (source lines 135-138), started at index `i`:
layer `j` of the remaining list gets scope `"%s/layers/%d" % (scope, i+j)`.
An exception stops the loop, keeping the already-updated prefix. -/
def encoderLayersLoopV2 (vars : Store) (scope : String) (relative : Bool) :
    Nat → List EncoderLayerSpec → List EncoderLayerSpec × Option String
  | _, [] => ([], none)
  | i, l :: ls =>
    match set_transformer_encoder_layer_v2 l vars
        (scope ++ "/layers/" ++ toString i) relative with
    | (l1, some e) => (l1 :: ls, some e)
    | (l1, none) =>
      match encoderLayersLoopV2 vars scope relative (i + 1) ls with
      | (ls1, err) => (l1 :: ls1, err)

/-- `set_transformer_encoder_v2(spec, variables, scope, relative=False)`
(source lines 133-138). -/
def set_transformer_encoder_v2 (spec : EncoderSpec) (vars : Store) (scope : String)
    (relative : Bool) : EncoderSpec × Option String :=
  match set_layer_norm spec.layer_norm vars (scope ++ "/layer_norm") with
  | (ln, some e) => ({ spec with layer_norm := ln }, some e)
  | (ln, none) =>
    let spec1 := { spec with layer_norm := ln }
    match encoderLayersLoopV2 vars scope relative 0 spec1.layer with
    | (ls, err) => ({ spec1 with layer := ls }, err)

/-- The decoder-side `enumerate(spec.layer)` loop of
`set_transformer_decoder_v2` (source lines 162-165). -/
def decoderLayersLoopV2 (vars : Store) (scope : String) (relative : Bool) :
    Nat → List DecoderLayerSpec → List DecoderLayerSpec × Option String
  | _, [] => ([], none)
  | i, l :: ls =>
    match set_transformer_decoder_layer_v2 l vars
        (scope ++ "/layers/" ++ toString i) relative with
    | (l1, some e) => (l1 :: ls, some e)
    | (l1, none) =>
      match decoderLayersLoopV2 vars scope relative (i + 1) ls with
      | (ls1, err) => (l1 :: ls1, err)

/-- `np.array_equal(spec.projection.weight, spec.embeddings.weight)` on
possibly-unset attributes: comparison against an unset (`None`) weight is
unequal. -/
def optArrayEqual : Option NDArray → Option NDArray → Bool
  | some a, some b => NDArray.array_equal a b
  | _, _ => false

/-- The target-embeddings `try/except` of `set_transformer_spec_v2` (source
lines 107-120): try the labels inputter, fall back on a `KeyError` to the
features inputter. -/
def targetEmbeddingsV2 (spec : EmbeddingsSpec) (vars : Store) :
    EmbeddingsSpec × Except String String :=
  match set_embeddings spec vars "model/examples_inputter/labels_inputter" 2 with
  | (d, Except.ok n) => (d, Except.ok n)
  | (_, Except.error _) =>
    set_embeddings spec vars "model/examples_inputter/features_inputter" 2

/-- The projection `try/except` of `set_transformer_decoder_v2` (source
lines 144-160): load `scope/output_layer/kernel` untransposed and
transpose it exactly when it is not `np.array_equal` to the decoder
embedding weight; on a `KeyError`, reuse the target embedding variable
with `transpose=False`. -/
def decoderProjectionV2 (spec : DecoderSpec) (vars : Store) (scope : String)
    (target_embedding_name : String) : LinearSpec × Option String :=
  match set_linear spec.projection vars (scope ++ "/output_layer") none false with
  | (p, none) =>
    if !optArrayEqual p.weight spec.embeddings.weight then
      ({ p with weight := Option.map NDArray.transpose p.weight }, none)
    else (p, none)
  | (_, some _) =>
    set_linear spec.projection vars (scope ++ "/output_layer")
      (some target_embedding_name) false

/-- `set_transformer_decoder_v2(spec, variables, scope,
target_embedding_name, relative=False)` (source lines 141-165):

    try:
        set_linear(spec.projection, variables, "%s/output_layer" % scope,
                   transpose=False)
        if not np.array_equal(spec.projection.weight, spec.embeddings.weight):
            spec.projection.weight = spec.projection.weight.transpose()
    except KeyError:
        set_linear(spec.projection, variables, "%s/output_layer" % scope,
                   weight_name=target_embedding_name, transpose=False)
    set_layer_norm(spec.layer_norm, variables, "%s/layer_norm" % scope)
    for i, layer in enumerate(spec.layer): ...
-/
def set_transformer_decoder_v2 (spec : DecoderSpec) (vars : Store) (scope : String)
    (target_embedding_name : String) (relative : Bool) : DecoderSpec × Option String :=
  match decoderProjectionV2 spec vars scope target_embedding_name with
  | (p, some e) => ({ spec with projection := p }, some e)
  | (p, none) =>
    let spec1 := { spec with projection := p }
    match set_layer_norm spec1.layer_norm vars (scope ++ "/layer_norm") with
    | (ln, some e) => ({ spec1 with layer_norm := ln }, some e)
    | (ln, none) =>
      let spec2 := { spec1 with layer_norm := ln }
      match decoderLayersLoopV2 vars scope relative 0 spec2.layer with
      | (ls, err) => ({ spec2 with layer := ls }, err)

/-- `set_transformer_spec_v2(spec, variables)` (source lines 100-130):
source embeddings from the features inputter; target embeddings from the
labels inputter, falling back to the features inputter on a `KeyError`;
then the v2 encoder and decoder setters. -/
def set_transformer_spec_v2 (spec : TransformerSpec) (vars : Store) :
    TransformerSpec × Option String :=
  match set_embeddings spec.encoder.embeddings vars
      "model/examples_inputter/features_inputter" 2 with
  | (e, Except.error n) =>
    ({ spec with encoder := { spec.encoder with embeddings := e } }, some n)
  | (e, Except.ok _) =>
    let spec1 := { spec with encoder := { spec.encoder with embeddings := e } }
    match targetEmbeddingsV2 spec1.decoder.embeddings vars with
    | (d, Except.error n) =>
      ({ spec1 with decoder := { spec1.decoder with embeddings := d } }, some n)
    | (d, Except.ok target_embedding_name) =>
      let spec2 := { spec1 with decoder := { spec1.decoder with embeddings := d } }
      match set_transformer_encoder_v2 spec2.encoder vars "model/encoder"
          spec2.with_relative_position with
      | (enc, some e) => ({ spec2 with encoder := enc }, some e)
      | (enc, none) =>
        let spec3 := { spec2 with encoder := enc }
        match set_transformer_decoder_v2 spec3.decoder vars "model/decoder"
            target_embedding_name spec3.with_relative_position with
        | (dec, err) => ({ spec3 with decoder := dec }, err)

/-- `set_ffn(spec, variables, scope)` (source lines 291-294, generation 1). -/
def set_ffn (spec : FeedForwardSpec) (vars : Store) (scope : String) :
    FeedForwardSpec × Option String :=
  match set_layer_norm spec.layer_norm vars (scope ++ "/LayerNorm") with
  | (ln, some e) => ({ spec with layer_norm := ln }, some e)
  | (ln, none) =>
    let spec1 := { spec with layer_norm := ln }
    match set_linear spec1.linear_0 vars (scope ++ "/conv1d") none true with
    | (l0, some e) => ({ spec1 with linear_0 := l0 }, some e)
    | (l0, none) =>
      let spec2 := { spec1 with linear_0 := l0 }
      match set_linear spec2.linear_1 vars (scope ++ "/conv1d_1") none true with
      | (l1, err) => ({ spec2 with linear_1 := l1 }, err)

/-- `set_multi_head_attention(spec, variables, scope, self_attention=False)`
(source lines 297-302, generation 1): `spec.linear[0]` from `conv1d`,
`spec.linear[1]` from `conv1d_1`, plus `spec.linear[2]` from `conv1d_2`
for cross-attention. -/
def set_multi_head_attention (spec : AttentionSpec) (vars : Store) (scope : String)
    (self_attention : Bool) : AttentionSpec × Option String :=
  match set_layer_norm spec.layer_norm vars (scope ++ "/LayerNorm") with
  | (ln, some e) => ({ spec with layer_norm := ln }, some e)
  | (ln, none) =>
    let spec1 := { spec with layer_norm := ln }
    match set_linear (spec1.linear.getD 0 emptyLinear) vars (scope ++ "/conv1d") none true with
    | (l0, some e) => ({ spec1 with linear := spec1.linear.set 0 l0 }, some e)
    | (l0, none) =>
      let spec2 := { spec1 with linear := spec1.linear.set 0 l0 }
      match set_linear (spec2.linear.getD 1 emptyLinear) vars (scope ++ "/conv1d_1") none true with
      | (l1, some e) => ({ spec2 with linear := spec2.linear.set 1 l1 }, some e)
      | (l1, none) =>
        let spec3 := { spec2 with linear := spec2.linear.set 1 l1 }
        if self_attention then (spec3, none)
        else
          match set_linear (spec3.linear.getD 2 emptyLinear) vars
              (scope ++ "/conv1d_2") none true with
          | (l2, err) => ({ spec3 with linear := spec3.linear.set 2 l2 }, err)

/-- `set_transformer_encoder_layer(spec, variables, scope)` (source lines
273-277, generation 1). -/
def set_transformer_encoder_layer (spec : EncoderLayerSpec) (vars : Store)
    (scope : String) : EncoderLayerSpec × Option String :=
  match set_ffn spec.ffn vars (scope ++ "/ffn") with
  | (f, some e) => ({ spec with ffn := f }, some e)
  | (f, none) =>
    let spec1 := { spec with ffn := f }
    match set_multi_head_attention spec1.self_attention vars
        (scope ++ "/multi_head") true with
    | (sa, err) => ({ spec1 with self_attention := sa }, err)

/-- `set_transformer_decoder_layer(spec, variables, scope)` (source lines
280-288, generation 1). -/
def set_transformer_decoder_layer (spec : DecoderLayerSpec) (vars : Store)
    (scope : String) : DecoderLayerSpec × Option String :=
  match set_ffn spec.ffn vars (scope ++ "/ffn") with
  | (f, some e) => ({ spec with ffn := f }, some e)
  | (f, none) =>
    let spec1 := { spec with ffn := f }
    match set_multi_head_attention spec1.self_attention vars
        (scope ++ "/masked_multi_head") true with
    | (sa, some e) => ({ spec1 with self_attention := sa }, some e)
    | (sa, none) =>
      let spec2 := { spec1 with self_attention := sa }
      match set_multi_head_attention spec2.attention vars
          (scope ++ "/multi_head") false with
      | (ca, err) => ({ spec2 with attention := ca }, err)

/-- The `enumerate(spec.layer)` loop of `set_transformer_encoder` (source
lines 239-242, generation 1). -/
def encoderLayersLoop (vars : Store) :
    Nat → List EncoderLayerSpec → List EncoderLayerSpec × Option String
  | _, [] => ([], none)
  | i, l :: ls =>
    match set_transformer_encoder_layer l vars
        ("transformer/encoder/layer_" ++ toString i) with
    | (l1, some e) => (l1 :: ls, some e)
    | (l1, none) =>
      match encoderLayersLoop vars (i + 1) ls with
      | (ls1, err) => (l1 :: ls1, err)

/-- The generation-1 embeddings `try/except` (source lines 234-238 and
246-254): try the per-side scope, fall back on a `KeyError` to the shared
embeddings scope. -/
def embeddingsWithSharedFallback (spec : EmbeddingsSpec) (vars : Store)
    (side_scope : String) : EmbeddingsSpec × Except String String :=
  match set_embeddings spec vars side_scope 1 with
  | (em, Except.ok n) => (em, Except.ok n)
  | (_, Except.error _) =>
    set_embeddings spec vars "transformer/shared_embeddings" 1

/-- The projection `try/except` of `set_transformer_decoder` (source lines
255-265): try `transformer/decoder/dense`, fall back on a `KeyError` to
reusing the target embedding variable with `transpose=False`. -/
def decoderProjectionV1 (projection : LinearSpec) (vars : Store)
    (embeddings_name : String) : LinearSpec × Option String :=
  match set_linear projection vars "transformer/decoder/dense" none true with
  | (p, none) => (p, none)
  | (_, some _) =>
    set_linear projection vars "transformer" (some embeddings_name) false

/-- `set_transformer_encoder(spec, variables)` (source lines 232-242,
generation 1): layer norm, then embeddings from the encoder scope with a
fallback to the shared-embeddings scope, then the layer loop. -/
def set_transformer_encoder (spec : EncoderSpec) (vars : Store) :
    EncoderSpec × Option String :=
  match set_layer_norm spec.layer_norm vars "transformer/encoder/LayerNorm" with
  | (ln, some e) => ({ spec with layer_norm := ln }, some e)
  | (ln, none) =>
    let spec1 := { spec with layer_norm := ln }
    match embeddingsWithSharedFallback spec1.embeddings vars "transformer/encoder" with
    | (em, Except.error n) => ({ spec1 with embeddings := em }, some n)
    | (em, Except.ok _) =>
      let spec2 := { spec1 with embeddings := em }
      match encoderLayersLoop vars 0 spec2.layer with
      | (ls, err) => ({ spec2 with layer := ls }, err)

/-- The `enumerate(spec.layer)` loop of `set_transformer_decoder` (source
lines 267-270, generation 1). -/
def decoderLayersLoop (vars : Store) :
    Nat → List DecoderLayerSpec → List DecoderLayerSpec × Option String
  | _, [] => ([], none)
  | i, l :: ls =>
    match set_transformer_decoder_layer l vars
        ("transformer/decoder/layer_" ++ toString i) with
    | (l1, some e) => (l1 :: ls, some e)
    | (l1, none) =>
      match decoderLayersLoop vars (i + 1) ls with
      | (ls1, err) => (l1 :: ls1, err)

/-- `set_transformer_decoder(spec, variables)` (source lines 245-270,
generation 1): embeddings from the decoder scope with a fallback to the
shared-embeddings scope; projection from `transformer/decoder/dense`,
falling back on a `KeyError` to reusing the target embedding variable
with `transpose=False`; then layer norm and the layer loop. -/
def set_transformer_decoder (spec : DecoderSpec) (vars : Store) :
    DecoderSpec × Option String :=
  match embeddingsWithSharedFallback spec.embeddings vars "transformer/decoder" with
  | (em, Except.error n) => ({ spec with embeddings := em }, some n)
  | (em, Except.ok embeddings_name) =>
    let spec1 := { spec with embeddings := em }
    match decoderProjectionV1 spec1.projection vars embeddings_name with
    | (p, some e) => ({ spec1 with projection := p }, some e)
    | (p, none) =>
      let spec2 := { spec1 with projection := p }
      match set_layer_norm spec2.layer_norm vars "transformer/decoder/LayerNorm" with
      | (ln, some e) => ({ spec2 with layer_norm := ln }, some e)
      | (ln, none) =>
        let spec3 := { spec2 with layer_norm := ln }
        match decoderLayersLoop vars 0 spec3.layer with
        | (ls, err) => ({ spec3 with layer := ls }, err)

/-- `set_transformer_spec(spec, variables)` (source lines 225-229,
generation 1): refuses relative-position architectures
(`NotImplementedError`), then runs the generation-1 encoder and decoder
setters. -/
def set_transformer_spec (spec : TransformerSpec) (vars : Store) :
    TransformerSpec × Option String :=
  if spec.with_relative_position then (spec, some "NotImplementedError")
  else
    match set_transformer_encoder spec.encoder vars with
    | (enc, some e) => ({ spec with encoder := enc }, some e)
    | (enc, none) =>
      let spec1 := { spec with encoder := enc }
      match set_transformer_decoder spec1.decoder vars with
      | (dec, err) => ({ spec1 with decoder := dec }, err)

/-- `_load_vocab` (source lines 44-58), restricted to the in-memory
`list` branch (the path and `opennmt.data.Vocab` branches call the
external `opennmt` package):

    tokens = list(vocab)
    if unk_token not in tokens:
        tokens.append(unk_token)
    return tokens
-/
def load_vocab_list (vocab : List String) (unk_token : String) : List String :=
  if unk_token ∈ vocab then vocab else vocab ++ [unk_token]

/-- The `variables` constructor argument of `OpenNMTTFConverter`: either a
dict (modelled by `Store`) or a value of some other runtime type. -/
inductive VarsArg where
  | dict (m : Store)
  | notDict
deriving DecidableEq

/-- The validation in `OpenNMTTFConverter.__init__` (source lines 64-77):
returns the `ValueError` message raised, if any.

    if (model_path is None) == (variables is None):
        raise ValueError("Exactly one of model_path and variables should be set")
    if variables is not None and not isinstance(variables, dict):
        raise ValueError("variables should be a dict mapping variable name to value")
-/
def converterInitError (model_path : Option String) (vars_arg : Option VarsArg) :
    Option String :=
  if model_path.isNone == vars_arg.isNone then
    some "Exactly one of model_path and variables should be set"
  else if vars_arg == some VarsArg.notDict then
    some "variables should be a dict mapping variable name to value"
  else none

/-- The version detection of `load_model` (source lines 33-35): generation
2 if and only if the checkpoint file name starts with `ckpt`. -/
def load_model_version (checkpoint_basename : String) : Nat :=
  if checkpoint_basename.startsWith "ckpt" then 2 else 1

/-- The version/variables selection of `OpenNMTTFConverter._load` (source
lines 84-90). `loaded` is `some (load_model(self._model_path))` when a
checkpoint path was given, `none` when in-memory variables were given:

    if self._model_path is not None:
        version, variables = load_model(self._model_path)
    else:
        version = 2  # Assume we are passing V2 variables.
        variables = self._variables
-/
def loadSelectVersion (loaded : Option (Nat × Store)) (self_variables : Store) :
    Nat × Store :=
  match loaded with
  | some vv => vv
  | none => (2, self_variables)

/-- The setter-pipeline dispatch of `OpenNMTTFConverter._load` (source
lines 84-94): select version and variables, then run the generation-2
pipeline when `version >= 2` and the generation-1 pipeline otherwise. -/
def loadDispatch (loaded : Option (Nat × Store)) (self_variables : Store)
    (spec : TransformerSpec) : TransformerSpec × Option String :=
  let vv := loadSelectVersion loaded self_variables
  if vv.1 ≥ 2 then set_transformer_spec_v2 spec vv.2
  else set_transformer_spec spec vv.2

/- Concrete fixtures used by witnesses and counterexamples. -/

/-- A 2x3 embedding-like fixture tensor (not equal to its transpose). -/
def embFix : NDArray := ⟨[2, 3], [1, 2, 3, 4, 5, 6]⟩

/-- A 1-D fixture tensor for gamma/beta vectors. -/
def vecFix : NDArray := ⟨[2], [7, 8]⟩

/-- A 2x2 kernel fixture tensor (not symmetric). -/
def kerFix : NDArray := ⟨[2, 2], [1, 0, 2, 5]⟩

/-- A minimal 1-element vector fixture. -/
def oneVec : NDArray := ⟨[1], [1]⟩

/-- A minimal 1x1 kernel fixture. -/
def oneKer : NDArray := ⟨[1, 1], [1]⟩

/-- All tensors the v2 setters require for one encoder layer under `scope`. -/
def encLayerVarsV2 (scope : String) : Store :=
  [(scope ++ "/ffn/input_layer_norm/gamma", oneVec),
   (scope ++ "/ffn/input_layer_norm/beta", oneVec),
   (scope ++ "/ffn/layer/inner/kernel", oneKer),
   (scope ++ "/ffn/layer/outer/kernel", oneKer),
   (scope ++ "/self_attention/input_layer_norm/gamma", oneVec),
   (scope ++ "/self_attention/input_layer_norm/beta", oneVec),
   (scope ++ "/self_attention/layer/linear_queries/kernel", oneKer),
   (scope ++ "/self_attention/layer/linear_keys/kernel", oneKer),
   (scope ++ "/self_attention/layer/linear_values/kernel", oneKer),
   (scope ++ "/self_attention/layer/linear_output/kernel", oneKer)]

/-- A v2 encoder checkpoint fixture holding the encoder layer norm plus
full layer tensors exactly for the layer indices in `layers`. -/
def encStoreFor (layers : List Nat) : Store :=
  [("model/encoder/layer_norm/gamma", oneVec),
   ("model/encoder/layer_norm/beta", oneVec)] ++
  (layers.map (fun i => encLayerVarsV2 ("model/encoder/layers/" ++ toString i))).flatten

/-- A generation-1 decoder checkpoint fixture with a target embedding but
no dedicated output-projection (`dense`) tensor. -/
def decTieStore : Store :=
  [("transformer/decoder/w_embs", embFix),
   ("transformer/decoder/LayerNorm/gamma", vecFix),
   ("transformer/decoder/LayerNorm/beta", vecFix)]

/-- A generation-1 fixture with only the shared-embeddings scope (plus the
layer norms both sides require). -/
def sharedOnlyStore : Store :=
  [("transformer/shared_embeddings/w_embs", embFix),
   ("transformer/encoder/LayerNorm/gamma", vecFix),
   ("transformer/encoder/LayerNorm/beta", vecFix),
   ("transformer/decoder/LayerNorm/gamma", vecFix),
   ("transformer/decoder/LayerNorm/beta", vecFix)]

/-- A fixture whose encoder layer norm has a gamma tensor but no beta. -/
def gammaOnlyStore : Store := [("model/encoder/layer_norm/gamma", vecFix)]

/-- Query / key / value / output kernel fixtures with distinct values. -/
def qFix : NDArray := ⟨[2, 2], [1, 2, 3, 4]⟩

/-- Key kernel fixture. -/
def kFix : NDArray := ⟨[2, 2], [5, 6, 7, 8]⟩

/-- Value kernel fixture. -/
def vFix : NDArray := ⟨[2, 2], [9, 10, 11, 12]⟩

/-- Output kernel fixture. -/
def oFix : NDArray := ⟨[2, 2], [13, 14, 15, 16]⟩

/-- A v2 attention-scope fixture with layer norm and all four projection
kernels. -/
def attnStoreFix : Store :=
  [("model/encoder/layers/0/self_attention/input_layer_norm/gamma", vecFix),
   ("model/encoder/layers/0/self_attention/input_layer_norm/beta", vecFix),
   ("model/encoder/layers/0/self_attention/layer/linear_queries/kernel", qFix),
   ("model/encoder/layers/0/self_attention/layer/linear_keys/kernel", kFix),
   ("model/encoder/layers/0/self_attention/layer/linear_values/kernel", vFix),
   ("model/encoder/layers/0/self_attention/layer/linear_output/kernel", oFix)]

/-- A store with a lone kernel (shape `[1, 2, 3]`, exercising squeeze) and
no bias. -/
def linStoreFix : Store := [("proj/kernel", ⟨[1, 2, 3], [1, 2, 3, 4, 5, 6]⟩)]

/-- A v2 decoder template whose embeddings were already populated with
`embFix` (as `set_transformer_spec_v2` does before calling the decoder
setter). -/
def decSpecWithEmb : DecoderSpec :=
  { decoderTemplate 0 with embeddings := ⟨some embFix, true⟩ }

/-- A v2 decoder template whose embeddings equal `kerFix`, for the
tied-weights case. -/
def decSpecWithKerEmb : DecoderSpec :=
  { decoderTemplate 0 with embeddings := ⟨some kerFix, true⟩ }

/-- A v2 decoder store with a dedicated output-projection kernel. -/
def decOutStore : Store := [("model/decoder/output_layer/kernel", kerFix)]

/-- A generation-1 decoder checkpoint fixture with both a dedicated
output-projection (`dense`) kernel and a target embedding. -/
def decDenseStore : Store :=
  [("transformer/decoder/w_embs", embFix),
   ("transformer/decoder/dense/kernel", kerFix),
   ("transformer/decoder/LayerNorm/gamma", vecFix),
   ("transformer/decoder/LayerNorm/beta", vecFix)]

/- Characterization lemmas for the leaf setters. -/

lemma set_layer_norm_found (spec : LayerNormSpec) (vars : Store) (scope : String)
    (g b : NDArray) (hg : lookupVar vars (scope ++ "/gamma") = some g)
    (hb : lookupVar vars (scope ++ "/beta") = some b) :
    set_layer_norm spec vars scope = ({ spec with gamma := some g, beta := some b }, none) := by
  unfold set_layer_norm
  rw [hg, hb]

lemma set_layer_norm_no_beta (spec : LayerNormSpec) (vars : Store) (scope : String)
    (g : NDArray) (hg : lookupVar vars (scope ++ "/gamma") = some g)
    (hb : lookupVar vars (scope ++ "/beta") = none) :
    set_layer_norm spec vars scope =
      ({ spec with gamma := some g }, some (scope ++ "/beta")) := by
  unfold set_layer_norm
  rw [hg, hb]

lemma set_linear_found (spec : LinearSpec) (vars : Store) (scope : String)
    (transpose : Bool) (w : NDArray)
    (h : lookupVar vars (scope ++ "/kernel") = some w) :
    set_linear spec vars scope none transpose =
      ({ spec with
          weight := some (if transpose then w.squeeze.transpose else w.squeeze),
          bias := match lookupVar vars (scope ++ "/bias") with
            | some b => some b
            | none => spec.bias }, none) := by
  simp only [set_linear, h]
  cases hb : lookupVar vars (scope ++ "/bias") <;> simp [hb]

lemma set_linear_missing (spec : LinearSpec) (vars : Store) (scope : String)
    (transpose : Bool) (h : lookupVar vars (scope ++ "/kernel") = none) :
    set_linear spec vars scope none transpose = (spec, some (scope ++ "/kernel")) := by
  simp only [set_linear, h]

lemma set_linear_named_found (spec : LinearSpec) (vars : Store) (scope : String)
    (transpose : Bool) (nm : String) (w : NDArray)
    (h : lookupVar vars nm = some w) :
    set_linear spec vars scope (some nm) transpose =
      ({ spec with
          weight := some (if transpose then w.squeeze.transpose else w.squeeze),
          bias := match lookupVar vars (scope ++ "/bias") with
            | some b => some b
            | none => spec.bias }, none) := by
  simp only [set_linear, h]
  cases hb : lookupVar vars (scope ++ "/bias") <;> simp [hb]

lemma set_embeddings_found (spec : EmbeddingsSpec) (vars : Store) (scope : String)
    (version : Nat) (w : NDArray)
    (h : lookupVar vars
      (scope ++ "/" ++ (if version == 2 then "embedding" else "w_embs")) = some w) :
    set_embeddings spec vars scope version =
      ({ spec with weight := some w, multiply_by_sqrt_depth := true },
       Except.ok (scope ++ "/" ++ (if version == 2 then "embedding" else "w_embs"))) := by
  simp only [set_embeddings, h]

lemma set_embeddings_missing (spec : EmbeddingsSpec) (vars : Store) (scope : String)
    (version : Nat)
    (h : lookupVar vars
      (scope ++ "/" ++ (if version == 2 then "embedding" else "w_embs")) = none) :
    set_embeddings spec vars scope version =
      (spec, Except.error (scope ++ "/" ++ (if version == 2 then "embedding" else "w_embs"))) := by
  simp only [set_embeddings, h]

/- Loop lemmas: the enumerate loops preserve the template's layer-list
length (they iterate over exactly the configured layers). -/

lemma encoderLayersLoopV2_length (vars : Store) (scope : String) (relative : Bool) :
    ∀ (i : Nat) (ls : List EncoderLayerSpec),
      ((encoderLayersLoopV2 vars scope relative i ls).1).length = ls.length := by
  intro i ls
  induction ls generalizing i with
  | nil => simp [encoderLayersLoopV2]
  | cons l ls ih =>
    unfold encoderLayersLoopV2
    cases h : set_transformer_encoder_layer_v2 l vars
        (scope ++ "/layers/" ++ toString i) relative with
    | mk l1 err =>
      cases err with
      | some e => simp
      | none =>
        have ih2 := ih (i + 1)
        cases h2 : encoderLayersLoopV2 vars scope relative (i + 1) ls with
        | mk ls1 err2 =>
          rw [h2] at ih2
          simp [ih2]

lemma decoderLayersLoopV2_length (vars : Store) (scope : String) (relative : Bool) :
    ∀ (i : Nat) (ls : List DecoderLayerSpec),
      ((decoderLayersLoopV2 vars scope relative i ls).1).length = ls.length := by
  intro i ls
  induction ls generalizing i with
  | nil => simp [decoderLayersLoopV2]
  | cons l ls ih =>
    unfold decoderLayersLoopV2
    cases h : set_transformer_decoder_layer_v2 l vars
        (scope ++ "/layers/" ++ toString i) relative with
    | mk l1 err =>
      cases err with
      | some e => simp
      | none =>
        have ih2 := ih (i + 1)
        cases h2 : decoderLayersLoopV2 vars scope relative (i + 1) ls with
        | mk ls1 err2 =>
          rw [h2] at ih2
          simp [ih2]

set_option maxRecDepth 10000

/-- C1 (counterexample): the layer count is not discovered from the
checkpoint. A checkpoint holding full tensors for encoder layers 0..4
(five transformer blocks) converted against a 3-layer template succeeds
with exactly 3 layers, not 5; and the claim's own fixture — layer tensors
at indices 0, 1, 2 and 4 but not 3 — against a 5-layer template does not
yield 3 layers: the conversion aborts with a `KeyError` naming the first
layer-3 tensor. -/
theorem C1_counterexample_layer_count_not_discovered :
    ((set_transformer_encoder_v2 (encoderTemplate 3) (encStoreFor [0, 1, 2, 3, 4])
        "model/encoder" false).2 = none) ∧
    ((set_transformer_encoder_v2 (encoderTemplate 3) (encStoreFor [0, 1, 2, 3, 4])
        "model/encoder" false).1.layer.length = 3) ∧
    ((lookupVar (encStoreFor [0, 1, 2, 3, 4])
        "model/encoder/layers/4/ffn/input_layer_norm/gamma").isSome = true) ∧
    ((set_transformer_encoder_v2 (encoderTemplate 5) (encStoreFor [0, 1, 2, 4])
        "model/encoder" false).2 =
      some "model/encoder/layers/3/ffn/input_layer_norm/gamma") := by
  decide

/-- C1 (amended): the encoder and decoder setters iterate the layer index
from 0 upward over exactly the layers configured in the spec template: the
populated layer count always equals the template's layer count (a missing
tensor for a configured layer index aborts the conversion instead of
truncating the layer list). -/
theorem C1_amended_layer_count_from_template :
    ∀ (vars : Store) (scope : String) (relative : Bool),
      (∀ spec : EncoderSpec,
        (set_transformer_encoder_v2 spec vars scope relative).1.layer.length =
          spec.layer.length) ∧
      (∀ (spec : DecoderSpec) (tname : String),
        (set_transformer_decoder_v2 spec vars scope tname relative).1.layer.length =
          spec.layer.length) := by
  intro vars scope relative
  constructor
  · intro spec
    unfold set_transformer_encoder_v2
    cases h : set_layer_norm spec.layer_norm vars (scope ++ "/layer_norm") with
    | mk ln err =>
      cases err with
      | some e => simp
      | none =>
        simp only [h]
        simpa using encoderLayersLoopV2_length vars scope relative 0 spec.layer
  · intro spec tname
    unfold set_transformer_decoder_v2
    cases hp : decoderProjectionV2 spec vars scope tname with
    | mk p perr =>
      cases perr with
      | some e => simp
      | none =>
        simp only []
        cases h : set_layer_norm spec.layer_norm vars (scope ++ "/layer_norm") with
        | mk ln err =>
          cases err with
          | some e => simp [h]
          | none =>
            simp only [h]
            simpa using decoderLayersLoopV2_length vars scope relative 0 spec.layer

/-- C5: `set_linear` drops singleton dimensions from the weight, then
transposes it unless the caller passes `transpose=False`; a bias is
attached exactly when a bias tensor exists under the same scope, and bias
absence is not an error. -/
theorem C5_set_linear_normalization (spec : LinearSpec) (vars : Store) (scope : String)
    (transpose : Bool) (w : NDArray)
    (h : lookupVar vars (scope ++ "/kernel") = some w) :
    ((set_linear spec vars scope none transpose).2 = none) ∧
    ((set_linear spec vars scope none transpose).1.weight =
      some (if transpose then w.squeeze.transpose else w.squeeze)) ∧
    (∀ b, lookupVar vars (scope ++ "/bias") = some b →
      (set_linear spec vars scope none transpose).1.bias = some b) ∧
    (lookupVar vars (scope ++ "/bias") = none →
      (set_linear spec vars scope none transpose).1.bias = spec.bias) := by
  rw [set_linear_found spec vars scope transpose w h]
  refine ⟨rfl, by simp, ?_, ?_⟩
  · intro b hb
    simp [hb]
  · intro hb
    simp [hb]

/-- C5 witness: a `[1, 2, 3]`-shaped kernel with no bias tensor is
squeezed to `[2, 3]` and transposed to `[3, 2]`; no error is raised and
no bias is attached. -/
theorem C5_witness :
    ((set_linear emptyLinear linStoreFix "proj" none true).2 = none) ∧
    ((set_linear emptyLinear linStoreFix "proj" none true).1.weight =
      some ⟨[3, 2], [1, 4, 2, 5, 3, 6]⟩) ∧
    ((set_linear emptyLinear linStoreFix "proj" none true).1.bias = none) := by
  have h := C5_set_linear_normalization emptyLinear linStoreFix "proj" true
    ⟨[1, 2, 3], [1, 2, 3, 4, 5, 6]⟩ (by decide)
  exact ⟨h.1, h.2.1.trans (by decide), h.2.2.2 (by decide)⟩

/-- C7 (counterexample): with a required layer-norm beta tensor missing,
the conversion does abort with an error naming that tensor, but the spec
tree visible to the caller is not unchanged: the gamma tensor assigned
before the failure remains populated in the caller-supplied tree. -/
theorem C7_counterexample_partial_mutation :
    ((set_transformer_encoder_v2 (encoderTemplate 1) gammaOnlyStore
        "model/encoder" false).2 = some "model/encoder/layer_norm/beta") ∧
    ((set_transformer_encoder_v2 (encoderTemplate 1) gammaOnlyStore
        "model/encoder" false).1 ≠ encoderTemplate 1) := by
  decide

/-- C7 (amended): a required layer-norm tensor missing from the variable
store aborts the conversion with an error naming exactly that tensor, and
no completed tree is produced; however, the setters mutate the
caller-supplied tree in place, so tensors assigned before the failure
(here gamma) remain populated in it. -/
theorem C7_amended_abort_names_tensor (spec : LayerNormSpec) (vars : Store)
    (scope : String) (g : NDArray)
    (hg : lookupVar vars (scope ++ "/gamma") = some g)
    (hb : lookupVar vars (scope ++ "/beta") = none) :
    set_layer_norm spec vars scope =
      ({ spec with gamma := some g }, some (scope ++ "/beta")) :=
  set_layer_norm_no_beta spec vars scope g hg hb

/-- C7 witness: on the gamma-only fixture, `set_layer_norm` errors naming
the beta tensor while returning the node with gamma already set. -/
theorem C7_witness :
    set_layer_norm emptyLayerNorm gammaOnlyStore "model/encoder/layer_norm" =
      ({ emptyLayerNorm with gamma := some vecFix },
       some "model/encoder/layer_norm/beta") := by
  have h := C7_amended_abort_names_tensor emptyLayerNorm gammaOnlyStore
    "model/encoder/layer_norm" vecFix (by decide) (by decide)
  exact h.trans (by decide)

/-- C8: the constructor raises a `ValueError` exactly when both or
neither of `model_path` and `variables` are supplied, or the supplied
`variables` is not a dict; and the check never inspects the dict's
contents (it runs before any name-resolution work). -/
theorem C8_init_validation :
    (∀ (mp : Option String) (va : Option VarsArg),
      ((converterInitError mp va).isSome = true ↔
        ((mp = none ↔ va = none) ∨ va = some VarsArg.notDict))) ∧
    (∀ (mp : Option String) (m m2 : Store),
      converterInitError mp (some (VarsArg.dict m)) =
        converterInitError mp (some (VarsArg.dict m2))) := by
  constructor
  · intro mp va
    rcases va with _ | v
    · cases mp <;> simp [converterInitError]
    · cases v <;> cases mp <;> simp [converterInitError]
  · intro mp m m2
    cases mp <;> rfl

/-- C9: the in-memory vocabulary branch preserves the token order and
guarantees the unknown-token symbol: if present, the list is returned
unchanged; otherwise the symbol is appended at the end. -/
theorem C9_vocab_unk_guarantee :
    ∀ (tokens : List String) (unk : String),
      unk ∈ load_vocab_list tokens unk ∧
      (unk ∈ tokens → load_vocab_list tokens unk = tokens) ∧
      (unk ∉ tokens → load_vocab_list tokens unk = tokens ++ [unk]) := by
  intro tokens unk
  unfold load_vocab_list
  by_cases h : unk ∈ tokens <;> simp [h]

/-- C9 witness: concrete instances of the vocabulary guarantee. -/
theorem C9_witness :
    "<unk>" ∈ load_vocab_list ["a", "b"] "<unk>" ∧
    load_vocab_list ["a", "b"] "<unk>" = ["a", "b", "<unk>"] ∧
    load_vocab_list ["a", "<unk>"] "<unk>" = ["a", "<unk>"] := by
  refine ⟨(C9_vocab_unk_guarantee ["a", "b"] "<unk>").1, ?_, ?_⟩
  · exact (C9_vocab_unk_guarantee ["a", "b"] "<unk>").2.2 (by decide)
  · exact (C9_vocab_unk_guarantee ["a", "<unk>"] "<unk>").2.1 (by decide)

/-- C10: when the converter was constructed with an in-memory variable
mapping (no checkpoint path), `_load` unconditionally assumes version 2
and runs the generation-2 setter pipeline on those variables; the
generation-1 pipeline is never consulted, whatever names the mapping
holds. -/
theorem C10_inmemory_variables_use_v2 :
    ∀ (self_variables : Store) (spec : TransformerSpec),
      loadSelectVersion none self_variables = (2, self_variables) ∧
      loadDispatch none self_variables spec = set_transformer_spec_v2 spec self_variables := by
  intro sv spec
  exact ⟨rfl, rfl⟩

/- Generation-1 embeddings-resolution lemmas. -/

lemma embFallbackV1_found (spec : EmbeddingsSpec) (vars : Store) (side : String)
    (e : NDArray) (h : lookupVar vars (side ++ "/" ++ "w_embs") = some e) :
    embeddingsWithSharedFallback spec vars side =
      ({ spec with weight := some e, multiply_by_sqrt_depth := true },
       Except.ok (side ++ "/" ++ "w_embs")) := by
  unfold embeddingsWithSharedFallback
  rw [set_embeddings_found spec vars side 1 e h]
  rfl

lemma embFallbackV1_shared (spec : EmbeddingsSpec) (vars : Store) (side : String)
    (s : NDArray) (h1 : lookupVar vars (side ++ "/" ++ "w_embs") = none)
    (h2 : lookupVar vars ("transformer/shared_embeddings" ++ "/" ++ "w_embs") = some s) :
    embeddingsWithSharedFallback spec vars side =
      ({ spec with weight := some s, multiply_by_sqrt_depth := true },
       Except.ok ("transformer/shared_embeddings" ++ "/" ++ "w_embs")) := by
  unfold embeddingsWithSharedFallback
  rw [set_embeddings_missing spec vars side 1 h1]
  rw [set_embeddings_found spec vars "transformer/shared_embeddings" 1 s h2]
  rfl

lemma set_transformer_encoder_embeddings (spec : EncoderSpec) (vars : Store)
    (ln : LayerNormSpec) (em : EmbeddingsSpec) (n : String)
    (hln : set_layer_norm spec.layer_norm vars "transformer/encoder/LayerNorm" = (ln, none))
    (hemb : embeddingsWithSharedFallback spec.embeddings vars "transformer/encoder" =
      (em, Except.ok n)) :
    (set_transformer_encoder spec vars).1.embeddings = em := by
  unfold set_transformer_encoder
  rw [hln]
  simp only []
  rw [hemb]

lemma set_transformer_decoder_embeddings (spec : DecoderSpec) (vars : Store)
    (em : EmbeddingsSpec) (n : String)
    (hemb : embeddingsWithSharedFallback spec.embeddings vars "transformer/decoder" =
      (em, Except.ok n)) :
    (set_transformer_decoder spec vars).1.embeddings = em := by
  unfold set_transformer_decoder
  rw [hemb]
  simp only []
  cases hp : decoderProjectionV1 spec.projection vars n with
  | mk p perr =>
    cases perr with
    | some e => simp
    | none =>
      simp only []
      cases h : set_layer_norm spec.layer_norm vars "transformer/decoder/LayerNorm" with
      | mk ln err =>
        cases err with
        | some e => simp [h]
        | none =>
          simp [h]

/-- C6: generation-1 embeddings are resolved per-side first, with a
fallback to the shared-embeddings scope exactly when the per-side lookup
misses; a checkpoint with only the shared scope populates both encoder
and decoder embeddings from it. -/
theorem C6_embeddings_per_side_then_shared :
    (∀ (spec : EncoderSpec) (vars : Store) (g b e : NDArray),
      lookupVar vars "transformer/encoder/LayerNorm/gamma" = some g →
      lookupVar vars "transformer/encoder/LayerNorm/beta" = some b →
      lookupVar vars "transformer/encoder/w_embs" = some e →
      (set_transformer_encoder spec vars).1.embeddings.weight = some e) ∧
    (∀ (spec : EncoderSpec) (vars : Store) (g b s : NDArray),
      lookupVar vars "transformer/encoder/LayerNorm/gamma" = some g →
      lookupVar vars "transformer/encoder/LayerNorm/beta" = some b →
      lookupVar vars "transformer/encoder/w_embs" = none →
      lookupVar vars "transformer/shared_embeddings/w_embs" = some s →
      (set_transformer_encoder spec vars).1.embeddings.weight = some s) ∧
    (∀ (spec : DecoderSpec) (vars : Store) (e : NDArray),
      lookupVar vars "transformer/decoder/w_embs" = some e →
      (set_transformer_decoder spec vars).1.embeddings.weight = some e) ∧
    (∀ (spec : DecoderSpec) (vars : Store) (s : NDArray),
      lookupVar vars "transformer/decoder/w_embs" = none →
      lookupVar vars "transformer/shared_embeddings/w_embs" = some s →
      (set_transformer_decoder spec vars).1.embeddings.weight = some s) := by
  refine ⟨?_, ?_, ?_, ?_⟩
  · intro spec vars g b e hg hb he
    rw [set_transformer_encoder_embeddings spec vars _ _ _
      (set_layer_norm_found spec.layer_norm vars "transformer/encoder/LayerNorm" g b hg hb)
      (embFallbackV1_found spec.embeddings vars "transformer/encoder" e he)]
  · intro spec vars g b s hg hb hnone hs
    rw [set_transformer_encoder_embeddings spec vars _ _ _
      (set_layer_norm_found spec.layer_norm vars "transformer/encoder/LayerNorm" g b hg hb)
      (embFallbackV1_shared spec.embeddings vars "transformer/encoder" s hnone hs)]
  · intro spec vars e he
    rw [set_transformer_decoder_embeddings spec vars _ _
      (embFallbackV1_found spec.embeddings vars "transformer/decoder" e he)]
  · intro spec vars s hnone hs
    rw [set_transformer_decoder_embeddings spec vars _ _
      (embFallbackV1_shared spec.embeddings vars "transformer/decoder" s hnone hs)]

/-- C6 witness: on a checkpoint fixture holding only the shared-embeddings
scope, both encoder and decoder embeddings are populated from it. -/
theorem C6_witness :
    ((set_transformer_encoder (encoderTemplate 0) sharedOnlyStore).1.embeddings.weight =
      some embFix) ∧
    ((set_transformer_decoder (decoderTemplate 0) sharedOnlyStore).1.embeddings.weight =
      some embFix) := by
  refine ⟨?_, ?_⟩
  · exact C6_embeddings_per_side_then_shared.2.1 (encoderTemplate 0) sharedOnlyStore
      vecFix vecFix embFix (by decide) (by decide) (by decide) (by decide)
  · exact C6_embeddings_per_side_then_shared.2.2.2 (decoderTemplate 0) sharedOnlyStore
      embFix (by decide) (by decide)

/- Decoder output-projection lemmas. -/

lemma set_transformer_decoder_v2_projection (spec : DecoderSpec) (vars : Store)
    (scope tname : String) (relative : Bool) :
    (set_transformer_decoder_v2 spec vars scope tname relative).1.projection =
      (decoderProjectionV2 spec vars scope tname).1 := by
  unfold set_transformer_decoder_v2
  cases hp : decoderProjectionV2 spec vars scope tname with
  | mk p perr =>
    cases perr with
    | some e => simp
    | none =>
      simp only []
      cases h : set_layer_norm spec.layer_norm vars (scope ++ "/layer_norm") with
      | mk ln err =>
        cases err with
        | some e => simp [h]
        | none => simp [h]

lemma decoderProjectionV2_found (spec : DecoderSpec) (vars : Store)
    (scope tname : String) (K E : NDArray)
    (hk : lookupVar vars (scope ++ "/output_layer" ++ "/kernel") = some K)
    (hE : spec.embeddings.weight = some E) :
    ((decoderProjectionV2 spec vars scope tname).1.weight =
      some (if NDArray.array_equal K.squeeze E then K.squeeze else K.squeeze.transpose)) ∧
    ((decoderProjectionV2 spec vars scope tname).2 = none) := by
  unfold decoderProjectionV2
  rw [set_linear_found spec.projection vars (scope ++ "/output_layer") false K hk]
  simp only []
  rw [hE]
  simp only [optArrayEqual]
  cases hae : NDArray.array_equal K.squeeze E <;> simp [hae]

lemma decoderProjectionV2_fallback (spec : DecoderSpec) (vars : Store)
    (scope tname : String) (E : NDArray)
    (hk : lookupVar vars (scope ++ "/output_layer" ++ "/kernel") = none)
    (ht : lookupVar vars tname = some E) :
    ((decoderProjectionV2 spec vars scope tname).1.weight = some E.squeeze) ∧
    ((decoderProjectionV2 spec vars scope tname).2 = none) := by
  unfold decoderProjectionV2
  rw [set_linear_missing spec.projection vars (scope ++ "/output_layer") false hk]
  simp only []
  rw [set_linear_named_found spec.projection vars (scope ++ "/output_layer") false tname E ht]
  simp

lemma set_transformer_decoder_projection_v1 (spec : DecoderSpec) (vars : Store)
    (em : EmbeddingsSpec) (n : String)
    (hemb : embeddingsWithSharedFallback spec.embeddings vars "transformer/decoder" =
      (em, Except.ok n)) :
    (set_transformer_decoder spec vars).1.projection =
      (decoderProjectionV1 spec.projection vars n).1 := by
  unfold set_transformer_decoder
  rw [hemb]
  simp only []
  cases hp : decoderProjectionV1 spec.projection vars n with
  | mk p perr =>
    cases perr with
    | some e => simp
    | none =>
      simp only []
      cases h : set_layer_norm spec.layer_norm vars "transformer/decoder/LayerNorm" with
      | mk ln err =>
        cases err with
        | some e => simp [h]
        | none => simp [h]

lemma decoderProjectionV1_found (proj : LinearSpec) (vars : Store) (n : String)
    (k : NDArray)
    (hk : lookupVar vars ("transformer/decoder/dense" ++ "/kernel") = some k) :
    ((decoderProjectionV1 proj vars n).1.weight = some k.squeeze.transpose) ∧
    ((decoderProjectionV1 proj vars n).2 = none) := by
  unfold decoderProjectionV1
  rw [set_linear_found proj vars "transformer/decoder/dense" true k hk]
  simp

lemma decoderProjectionV1_fallback (proj : LinearSpec) (vars : Store) (n : String)
    (e : NDArray)
    (hk : lookupVar vars ("transformer/decoder/dense" ++ "/kernel") = none)
    (hn : lookupVar vars n = some e) :
    ((decoderProjectionV1 proj vars n).1.weight = some e.squeeze) ∧
    ((decoderProjectionV1 proj vars n).2 = none) := by
  unfold decoderProjectionV1
  rw [set_linear_missing proj vars "transformer/decoder/dense" true hk]
  simp only []
  rw [set_linear_named_found proj vars "transformer" false n e hn]
  simp

/-- C2 (counterexample): on a generation-1 checkpoint lacking the
dedicated output-projection (`dense`) tensor but containing a target
embedding, the conversion succeeds and the projection weight equals the
embedding weight itself, which differs from the transposed embedding
weight — so the projection weight is not "the target embedding weight
transposed". -/
theorem C2_counterexample_tied_weight_not_transposed :
    ((set_transformer_decoder (decoderTemplate 0) decTieStore).2 = none) ∧
    ((set_transformer_decoder (decoderTemplate 0) decTieStore).1.projection.weight =
      some embFix) ∧
    (embFix.transpose ≠ embFix) := by
  decide

/-- C2 (amended): an explicitly present dedicated output-projection tensor
is always preferred over weight tying (generation 1 squeezes and
transposes it); when it is absent and a target embedding exists, the
projection weight is set to the target embedding weight as stored
(squeezed, with `transpose=False` — no transpose is applied), in both the
generation-1 and generation-2 pipelines. -/
theorem C2_amended_projection_resolution :
    (∀ (spec : DecoderSpec) (vars : Store) (e k : NDArray),
      lookupVar vars "transformer/decoder/w_embs" = some e →
      lookupVar vars "transformer/decoder/dense/kernel" = some k →
      (set_transformer_decoder spec vars).1.projection.weight = some k.squeeze.transpose) ∧
    (∀ (spec : DecoderSpec) (vars : Store) (e : NDArray),
      lookupVar vars "transformer/decoder/w_embs" = some e →
      lookupVar vars "transformer/decoder/dense/kernel" = none →
      (set_transformer_decoder spec vars).1.projection.weight = some e.squeeze) ∧
    (∀ (spec : DecoderSpec) (vars : Store) (scope tname : String) (relative : Bool)
        (e : NDArray),
      lookupVar vars (scope ++ "/output_layer" ++ "/kernel") = none →
      lookupVar vars tname = some e →
      (set_transformer_decoder_v2 spec vars scope tname relative).1.projection.weight =
        some e.squeeze) := by
  refine ⟨?_, ?_, ?_⟩
  · intro spec vars e k he hk
    rw [set_transformer_decoder_projection_v1 spec vars _ _
      (embFallbackV1_found spec.embeddings vars "transformer/decoder" e he)]
    exact (decoderProjectionV1_found spec.projection vars _ k hk).1
  · intro spec vars e he hk
    rw [set_transformer_decoder_projection_v1 spec vars _ _
      (embFallbackV1_found spec.embeddings vars "transformer/decoder" e he)]
    exact (decoderProjectionV1_fallback spec.projection vars _ e hk he).1
  · intro spec vars scope tname relative e hk ht
    rw [set_transformer_decoder_v2_projection]
    exact (decoderProjectionV2_fallback spec vars scope tname e hk ht).1

/-- C2 witness: with both the `dense` kernel and the target embedding
present, the projection comes from the dense kernel (transposed); with
the dense kernel absent, it equals the stored embedding weight. -/
theorem C2_witness :
    ((set_transformer_decoder (decoderTemplate 0) decDenseStore).1.projection.weight =
      some ⟨[2, 2], [1, 2, 0, 5]⟩) ∧
    ((set_transformer_decoder (decoderTemplate 0) decTieStore).1.projection.weight =
      some embFix) := by
  refine ⟨?_, ?_⟩
  · exact (C2_amended_projection_resolution.1 (decoderTemplate 0) decDenseStore
      embFix kerFix (by decide) (by decide)).trans (by decide)
  · exact (C2_amended_projection_resolution.2.1 (decoderTemplate 0) decTieStore
      embFix (by decide) (by decide)).trans (by decide)

/-- C3: in the generation-2 decoder pipeline, weight tying between the
loaded output-projection tensor and the decoder embedding weight is
decided by `np.array_equal` — exact shape and element equality, not a
tolerance-based comparison — and the projection weight is transposed if
and only if that comparison finds the arrays unequal. -/
theorem C3_exact_equality_decides_tying
    (spec : DecoderSpec) (vars : Store) (scope tname : String) (relative : Bool)
    (K E : NDArray)
    (hk : lookupVar vars (scope ++ "/output_layer" ++ "/kernel") = some K)
    (hE : spec.embeddings.weight = some E) :
    ((set_transformer_decoder_v2 spec vars scope tname relative).1.projection.weight =
      some (if NDArray.array_equal K.squeeze E then K.squeeze else K.squeeze.transpose)) ∧
    (∀ a b : NDArray,
      NDArray.array_equal a b = true ↔ (a.shape = b.shape ∧ a.data = b.data)) := by
  constructor
  · rw [set_transformer_decoder_v2_projection]
    exact (decoderProjectionV2_found spec vars scope tname K E hk hE).1
  · intro a b
    simp [NDArray.array_equal]

/-- C3 witness: an output-projection kernel unequal to the embedding
weight is transposed; one exactly equal to it is kept untransposed. -/
theorem C3_witness :
    ((set_transformer_decoder_v2 decSpecWithEmb decOutStore "model/decoder" "tgt"
        false).1.projection.weight = some ⟨[2, 2], [1, 2, 0, 5]⟩) ∧
    (NDArray.array_equal kerFix.squeeze embFix = false) ∧
    ((set_transformer_decoder_v2 decSpecWithKerEmb decOutStore "model/decoder" "tgt"
        false).1.projection.weight = some kerFix) ∧
    (NDArray.array_equal kerFix.squeeze kerFix = true) := by
  refine ⟨?_, by decide, ?_, by decide⟩
  · exact ((C3_exact_equality_decides_tying decSpecWithEmb decOutStore "model/decoder"
      "tgt" false kerFix embFix (by decide) (by decide)).1).trans (by decide)
  · exact ((C3_exact_equality_decides_tying decSpecWithKerEmb decOutStore "model/decoder"
      "tgt" false kerFix kerFix (by decide) (by decide)).1).trans (by decide)

/-- C4: in the v2 setters, a self-attention block's linear sequence gets
the fused query+key+value projection (concatenated in query, key, value
order) as entry 0 and the output projection as the last of its 2 entries;
a cross-attention block keeps the query projection as entry 0, the fused
key+value projection (key before value) as entry 1, and the output
projection as the last of its 3 entries. -/
theorem C4_attention_fused_order (vars : Store) (scope : String)
    (g b wq wk wv wo : NDArray)
    (hg : lookupVar vars (scope ++ "/input_layer_norm" ++ "/gamma") = some g)
    (hb : lookupVar vars (scope ++ "/input_layer_norm" ++ "/beta") = some b)
    (hq : lookupVar vars (scope ++ "/layer/linear_queries" ++ "/kernel") = some wq)
    (hk : lookupVar vars (scope ++ "/layer/linear_keys" ++ "/kernel") = some wk)
    (hv : lookupVar vars (scope ++ "/layer/linear_values" ++ "/kernel") = some wv)
    (ho : lookupVar vars (scope ++ "/layer/linear_output" ++ "/kernel") = some wo) :
    (∀ (spec : AttentionSpec) (a c : LinearSpec), spec.linear = [a, c] →
      ((set_multi_head_attention_v2 spec vars scope true false).1.linear.map
          LinearSpec.weight =
        [some (concatRows
            [wq.squeeze.transpose, wk.squeeze.transpose, wv.squeeze.transpose]),
         some wo.squeeze.transpose]) ∧
      ((set_multi_head_attention_v2 spec vars scope true false).2 = none)) ∧
    (∀ (spec : AttentionSpec) (a c d : LinearSpec), spec.linear = [a, c, d] →
      ((set_multi_head_attention_v2 spec vars scope false false).1.linear.map
          LinearSpec.weight =
        [some wq.squeeze.transpose,
         some (concatRows [wk.squeeze.transpose, wv.squeeze.transpose]),
         some wo.squeeze.transpose]) ∧
      ((set_multi_head_attention_v2 spec vars scope false false).2 = none)) := by
  constructor
  · intro spec a c hlin
    unfold set_multi_head_attention_v2
    rw [set_layer_norm_found spec.layer_norm vars (scope ++ "/input_layer_norm") g b hg hb]
    simp only [hlin]
    simp [set_linear_found emptyLinear vars (scope ++ "/layer/linear_queries") true wq hq,
      set_linear_found emptyLinear vars (scope ++ "/layer/linear_keys") true wk hk,
      set_linear_found emptyLinear vars (scope ++ "/layer/linear_values") true wv hv,
      set_linear_found c vars (scope ++ "/layer/linear_output") true wo ho,
      fuse_linear]
  · intro spec a c d hlin
    unfold set_multi_head_attention_v2
    rw [set_layer_norm_found spec.layer_norm vars (scope ++ "/input_layer_norm") g b hg hb]
    simp only [hlin]
    simp [set_linear_found a vars (scope ++ "/layer/linear_queries") true wq hq,
      set_linear_found emptyLinear vars (scope ++ "/layer/linear_keys") true wk hk,
      set_linear_found emptyLinear vars (scope ++ "/layer/linear_values") true wv hv,
      set_linear_found d vars (scope ++ "/layer/linear_output") true wo ho,
      fuse_linear]

/-- C4 witness: on a concrete store, the self-attention fused entry is
exactly the row-concatenation of the transposed query, key, value kernels
(in that order) followed by the output projection; the cross-attention
block has the 3-entry layout with key before value in its fused entry. -/
theorem C4_witness :
    ((set_multi_head_attention_v2 selfAttentionTemplate attnStoreFix
        "model/encoder/layers/0/self_attention" true false).1.linear.map
        LinearSpec.weight =
      [some ⟨[6, 2], [1, 3, 2, 4, 5, 7, 6, 8, 9, 11, 10, 12]⟩,
       some ⟨[2, 2], [13, 15, 14, 16]⟩]) ∧
    ((set_multi_head_attention_v2 crossAttentionTemplate attnStoreFix
        "model/encoder/layers/0/self_attention" false false).1.linear.map
        LinearSpec.weight =
      [some ⟨[2, 2], [1, 3, 2, 4]⟩,
       some ⟨[4, 2], [5, 7, 6, 8, 9, 11, 10, 12]⟩,
       some ⟨[2, 2], [13, 15, 14, 16]⟩]) := by
  have h := C4_attention_fused_order attnStoreFix "model/encoder/layers/0/self_attention"
    vecFix vecFix qFix kFix vFix oFix (by decide) (by decide) (by decide) (by decide)
    (by decide) (by decide)
  exact ⟨((h.1 selfAttentionTemplate emptyLinear emptyLinear rfl).1).trans (by decide),
         ((h.2 crossAttentionTemplate emptyLinear emptyLinear emptyLinear rfl).1).trans
           (by decide)⟩
